import Mathlib

/-!
Shallow embedding of the credit-metered API-call ledger of the
bin-genie-panel repository (Dashboard component, AdminPanel component and
the SQL migrations), together with proofs of the testable properties of
its specification.

The embedding follows the source:
- `binSchema`, `quantitySchema`, `monthSchema`, `yearSchema` model the zod
  field schemas (each `safeParse` yields the first error message on failure);
- `validateInputs` models the `validateInputs` closure: it returns the
  `errors` record (as an association list in field order) and the boolean
  `Object.keys(newErrors).length === 0`;
- `makeApiCall` models the `makeApiCall` closure as a function of the
  submitted parameters, the outcome of the external `fetch`, and a state
  holding the `profiles` store table, the `api_calls` store table, the
  in-memory `profile` and the `errors` record;
- `fetchProfile`, `fetchRecentCalls`, `fetchStats` and `is_admin` model the
  corresponding accessors; database-generated columns (row ids, timestamps
  filled by `now()`) are omitted from insert payloads exactly as the source
  omits them, and the `created_at` column appears only on rows read back
  from the store.
-/

namespace BinGenie

/-- Models the JavaScript expression `o || d` for a string that may be
absent (`undefined`/`null`) or empty: the empty string is falsy. -/
def jsOr (o : Option String) (d : String) : String :=
  match o with
  | some s => if s = "" then d else s
  | none => d

/-- Models `o || null` for a string that may be absent or empty. -/
def jsOrNull (o : Option String) : Option String :=
  match o with
  | some s => if s = "" then none else some s
  | none => none

/-- A row of the `profiles` table: `user_id`, `email`, `full_name`,
`credits` (INTEGER), `is_admin` (BOOLEAN). -/
structure ProfileRow where
  user_id : String
  email : Option String
  full_name : Option String
  credits : Int
  is_admin : Bool
deriving DecidableEq, Repr

/-- The JSON body returned by the external generator API: an optional
`error` field and an optional `live_cards_found` field. -/
structure RespData where
  error : Option String
  live_cards_found : Option Int
deriving DecidableEq, Repr

/-- The payload inserted into `api_calls` by `makeApiCall` (the
database fills in `id` and `created_at`). -/
structure CallRecord where
  user_id : String
  bin : String
  quantity : Int
  credits_used : Int
  success : Bool
  response_data : Option RespData
  error_message : Option String
deriving DecidableEq, Repr

/-- A row of the `api_calls` table as read back from the store
(`id` and `created_at` are database-generated). -/
structure ApiCall where
  id : String
  user_id : String
  bin : String
  quantity : Int
  credits_used : Int
  success : Bool
  response_data : Option RespData
  error_message : Option String
  created_at : Nat
deriving DecidableEq, Repr

/-- The submitted form parameters: `bin`, `quantity`, `month`, `year`. -/
structure Params where
  bin : String
  quantity : Int
  month : Int
  year : Int
deriving DecidableEq, Repr

/-- The regex `^\d{6,}$` of the zod bin schema: the whole string is
digits and has length at least 6. -/
def binDigits (s : String) : Bool :=
  decide (6 ≤ s.length) && s.data.all Char.isDigit

/-- `binSchema.safeParse`: `none` on success, otherwise the error message. -/
def binSchema (s : String) : Option String :=
  if binDigits s then none else some "BIN must be at least 6 digits"

/-- `quantitySchema.safeParse`: `z.number().min(1).max(50)`. -/
def quantitySchema (q : Int) : Option String :=
  if q < 1 then some "Quantity must be at least 1"
  else if 50 < q then some "Quantity cannot exceed 50"
  else none

/-- `monthSchema.safeParse`: `z.number().min(1).max(12)`. -/
def monthSchema (m : Int) : Option String :=
  if m < 1 then some "Month must be between 1-12"
  else if 12 < m then some "Month must be between 1-12"
  else none

/-- `yearSchema.safeParse`: `z.number().min(2025).max(2035)`. -/
def yearSchema (y : Int) : Option String :=
  if y < 2025 then some "Year must be 2025 or later"
  else if 2035 < y then some "Year cannot exceed 2035"
  else none

/-- Helper assembling one field's entry of the `newErrors` record. -/
def optErr (field : String) (o : Option String) : List (String × String) :=
  match o with
  | some m => [(field, m)]
  | none => []

/-- `validateInputs`: builds the `newErrors` record field by field, stores
it (first component) and returns `Object.keys(newErrors).length === 0`
(second component). -/
def validateInputs (p : Params) : List (String × String) × Bool :=
  let errs :=
    optErr "bin" (binSchema p.bin) ++
    optErr "quantity" (quantitySchema p.quantity) ++
    optErr "month" (monthSchema p.month) ++
    optErr "year" (yearSchema p.year)
  (errs, errs.isEmpty)

/-- Outcome of `await fetch(...)` followed by `await response.json()`:
either the whole expression throws (transport failure), or it returns a
response with `response.ok` and a parsed JSON body. -/
inductive FetchOutcome where
  | throws : FetchOutcome
  | returns (ok : Bool) (data : RespData) : FetchOutcome
deriving DecidableEq, Repr

/-- The user-facing toast raised by an operation. -/
inductive Toast where
  | insufficientCredits
  | genSuccess
  | apiCallFailed
  | requestFailed
  | profileFetchError
deriving DecidableEq, Repr

/-- Dashboard state visible to `makeApiCall`: the `profiles` store table,
the `api_calls` store table, the in-memory `profile` and the in-memory
`errors` record. -/
structure LedgerState where
  profiles : List ProfileRow
  apiCalls : List CallRecord
  profile : Option ProfileRow
  errors : List (String × String)
deriving DecidableEq, Repr

/-- Observable trace of one `makeApiCall` run: whether the external HTTP
request was issued, and the toast shown. -/
structure CallTrace where
  requested : Bool
  toast : Option Toast
deriving DecidableEq, Repr

/-- The store-side `update({credits: c}).eq('user_id', uid)` on `profiles`. -/
def updateCredits (rows : List ProfileRow) (uid : String) (c : Int) :
    List ProfileRow :=
  rows.map fun r => if r.user_id = uid then { r with credits := c } else r

/-- The object literal inserted into `api_calls` by `makeApiCall`. -/
def mkCallRecord (uid : String) (p : Params) (ok : Bool) (data : RespData) :
    CallRecord :=
  { user_id := uid
    bin := p.bin
    quantity := p.quantity
    credits_used := 1
    success := ok
    response_data := if ok then some data else none
    error_message := if ok then none else some (jsOr data.error "Unknown error") }

/-- `makeApiCall`: validate; check the credit precondition; issue the
external request; on a returned response log one `api_calls` record and,
on success, write `profile.credits - 1` to the store and to the in-memory
profile; on a thrown request fall into the catch block (no log, no
update). -/
def makeApiCall (uid : String) (p : Params) (outcome : FetchOutcome)
    (s : LedgerState) : LedgerState × CallTrace :=
  let v := validateInputs p
  let s0 : LedgerState := { s with errors := v.1 }
  if !v.2 then
    (s0, { requested := false, toast := none })
  else
    match s0.profile with
    | none =>
        (s0, { requested := false, toast := some .insufficientCredits })
    | some prof =>
        if prof.credits < 1 then
          (s0, { requested := false, toast := some .insufficientCredits })
        else
          match outcome with
          | .throws =>
              (s0, { requested := true, toast := some .requestFailed })
          | .returns ok data =>
              let s1 : LedgerState :=
                { s0 with apiCalls := s0.apiCalls ++ [mkCallRecord uid p ok data] }
              if ok then
                ({ s1 with
                     profiles := updateCredits s1.profiles uid (prof.credits - 1)
                     profile := some { prof with credits := prof.credits - 1 } },
                 { requested := true, toast := some .genSuccess })
              else
                (s1, { requested := true, toast := some .apiCallFailed })

/-- The authenticated user as seen by the Dashboard: `user.id`,
`user.email` and `user.user_metadata.full_name`. -/
structure AuthUser where
  id : String
  email : Option String
  metaFullName : Option String
deriving DecidableEq, Repr

/-- Outcome of the `profiles` lookup
`select('*').eq('user_id', user.id).maybeSingle()`:
a store error, a found row, or no row. -/
inductive LookupOutcome where
  | failure : LookupOutcome
  | found (r : ProfileRow) : LookupOutcome
  | absent : LookupOutcome
deriving DecidableEq, Repr

/-- The row payload inserted by `fetchProfile` when no profile exists:
the user's id, email, `full_name || null` and zero credits (`is_admin`
takes the column default FALSE). -/
def newProfileRow (u : AuthUser) : ProfileRow :=
  { user_id := u.id
    email := u.email
    full_name := jsOrNull u.metaFullName
    credits := 0
    is_admin := false }

/-- Result of one `fetchProfile` run: the in-memory profile afterwards,
the row inserted into the store (if any), and the toast shown. -/
structure FetchProfileResult where
  profile : Option ProfileRow
  inserted : Option ProfileRow
  toast : Option Toast
deriving DecidableEq, Repr

/-- `fetchProfile`: look the profile up by user identity; on a store error
throw into the catch block (generic toast, profile state untouched); when
absent insert a fresh row with zero credits and set it as the profile
(unless the insert itself errors); when found set the found row. -/
def fetchProfile (u : AuthUser) (lk : LookupOutcome) (insertFails : Bool)
    (prev : Option ProfileRow) : FetchProfileResult :=
  match lk with
  | .failure => { profile := prev, inserted := none,
                  toast := some .profileFetchError }
  | .found r => { profile := some r, inserted := none, toast := none }
  | .absent =>
      if insertFails then
        { profile := prev, inserted := none,
          toast := some .profileFetchError }
      else
        { profile := some (newProfileRow u), inserted := some (newProfileRow u),
          toast := none }

/-- The SQL security-definer function `public.is_admin(user_id uuid)`:
`EXISTS (SELECT 1 FROM profiles WHERE profiles.user_id = $1 AND
profiles.is_admin = true)`, over the `profiles` table. -/
def is_admin (profiles : List ProfileRow) (uid : String) : Bool :=
  profiles.any fun r => (r.user_id == uid) && r.is_admin

/-- The aggregate record built by `fetchStats`. -/
structure ApiCallStats where
  total_calls : Nat
  successful_calls : Nat
  failed_calls : Nat
  total_credits_used : Int
deriving DecidableEq, Repr

/-- The initial accumulator of the `fetchStats` reduce. -/
def statsInit : ApiCallStats :=
  { total_calls := 0, successful_calls := 0, failed_calls := 0,
    total_credits_used := 0 }

/-- One step of the `fetchStats` reduce: bump `total_calls` and
`total_credits_used`, then bump the success or failure counter. -/
def statsStep (acc : ApiCallStats) (c : ApiCall) : ApiCallStats :=
  { total_calls := acc.total_calls + 1
    total_credits_used := acc.total_credits_used + c.credits_used
    successful_calls :=
      if c.success then acc.successful_calls + 1 else acc.successful_calls
    failed_calls :=
      if c.success then acc.failed_calls else acc.failed_calls + 1 }

/-- `fetchStats`: fold the reduce over all `api_calls` rows, starting from
the all-zero accumulator (which is also the result on a null row set). -/
def fetchStats (rows : List ApiCall) : ApiCallStats :=
  rows.foldl statsStep statsInit

/-- The ordering used by the recent-calls query:
`order('created_at', { ascending: false })`, newest first. -/
def newestFirst (a b : ApiCall) : Prop :=
  b.created_at ≤ a.created_at

instance : DecidableRel newestFirst :=
  fun a b => inferInstanceAs (Decidable (b.created_at ≤ a.created_at))

instance : IsTotal ApiCall newestFirst :=
  ⟨fun a b => Nat.le_total b.created_at a.created_at⟩

instance : IsTrans ApiCall newestFirst :=
  ⟨fun _ _ _ hab hbc => le_trans hbc hab⟩

/-- The store-side query of `fetchRecentCalls`:
`from('api_calls').select('*').eq('user_id', uid)
.order('created_at', { ascending: false }).limit(5)` — the user's own
rows, newest first, at most five. -/
def recentQuery (db : List ApiCall) (uid : String) : List ApiCall :=
  ((db.filter fun c => c.user_id == uid).insertionSort newestFirst).take 5

/-- `fetchRecentCalls`: on a store error the catch block leaves the
previously displayed list untouched; otherwise the query result replaces
it. -/
def fetchRecentCalls (db : List ApiCall) (uid : String) (storeFails : Bool)
    (prev : List ApiCall) : List ApiCall :=
  if storeFails then prev else recentQuery db uid

/-! Concrete fixtures used by the witness theorems. -/

/-- A sample profile row holding 3 credits. -/
def sampleProfile : ProfileRow :=
  { user_id := "u1", email := some "alice@example.com", full_name := none,
    credits := 3, is_admin := false }

/-- A sample dashboard state: one store row, an empty call log, the sample
profile loaded in memory. -/
def sampleState : LedgerState :=
  { profiles := [sampleProfile], apiCalls := [], profile := some sampleProfile,
    errors := [] }

/-- The example parameter set of the specification: bin prefix "401658",
quantity 10 (month 12, year 2028 in range). -/
def sampleParams : Params :=
  { bin := "401658", quantity := 10, month := 12, year := 2028 }

/-- A sample successful response body. -/
def sampleData : RespData :=
  { error := none, live_cards_found := some 7 }

/-- A sample error response body. -/
def sampleErrData : RespData :=
  { error := some "invalid bin", live_cards_found := none }

/-- A sample profile row with an exhausted balance. -/
def brokeProfile : ProfileRow :=
  { user_id := "u2", email := none, full_name := some "Bob", credits := 0,
    is_admin := false }

/-- A sample dashboard state whose profile has zero credits. -/
def brokeState : LedgerState :=
  { profiles := [brokeProfile], apiCalls := [], profile := some brokeProfile,
    errors := [] }

/-- A sample authenticated user. -/
def sampleUser : AuthUser :=
  { id := "u3", email := some "carol@example.com", metaFullName := some "Carol" }

/-- The specification's invalid example: bin "12345" has only five digits. -/
def invalidParams : Params :=
  { bin := "12345", quantity := 10, month := 12, year := 2028 }

/-- An input violating every field constraint at once. -/
def allInvalidParams : Params :=
  { bin := "12x", quantity := 0, month := 0, year := 2000 }

/-- A six-digit bin with quantity in range but month out of range. -/
def badMonthParams : Params :=
  { bin := "123456", quantity := 10, month := 0, year := 2028 }

/-- A sample stored `api_calls` table: two rows for user "u1" (the older
one first) and one row for another user. -/
def sampleCalls : List ApiCall :=
  [{ id := "c1", user_id := "u1", bin := "401658", quantity := 10,
     credits_used := 1, success := true, response_data := none,
     error_message := none, created_at := 100 },
   { id := "c2", user_id := "u1", bin := "515462", quantity := 5,
     credits_used := 1, success := false, response_data := none,
     error_message := some "invalid bin", created_at := 200 },
   { id := "c3", user_id := "u9", bin := "401658", quantity := 1,
     credits_used := 1, success := true, response_data := none,
     error_message := none, created_at := 300 }]

/-! Helper lemmas about the validation schemas. -/

theorem optErr_eq_nil_iff (f : String) (o : Option String) :
    optErr f o = [] ↔ o = none := by
  cases o <;> simp [optErr]

theorem binSchema_none_iff (s : String) :
    binSchema s = none ↔ binDigits s = true := by
  cases h : binDigits s <;> simp [binSchema, h]

theorem quantitySchema_none_iff (q : Int) :
    quantitySchema q = none ↔ 1 ≤ q ∧ q ≤ 50 := by
  unfold quantitySchema
  split_ifs <;> simp <;> omega

theorem monthSchema_none_iff (m : Int) :
    monthSchema m = none ↔ 1 ≤ m ∧ m ≤ 12 := by
  unfold monthSchema
  split_ifs <;> simp <;> omega

theorem yearSchema_none_iff (y : Int) :
    yearSchema y = none ↔ 2025 ≤ y ∧ y ≤ 2035 := by
  unfold yearSchema
  split_ifs <;> simp <;> omega

theorem binDigits_iff (s : String) :
    binDigits s = true ↔ 6 ≤ s.length ∧ ∀ c ∈ s.data, c.isDigit = true := by
  simp [binDigits, List.all_eq_true]

theorem validateInputs_ok_iff (p : Params) :
    (validateInputs p).2 = true ↔
      binSchema p.bin = none ∧ quantitySchema p.quantity = none ∧
      monthSchema p.month = none ∧ yearSchema p.year = none := by
  simp [validateInputs, List.isEmpty_iff, List.append_eq_nil, optErr_eq_nil_iff]

/-- Closed form of the `fetchStats` reduce from an arbitrary accumulator. -/
theorem fetchStats_foldl (rows : List ApiCall) (acc : ApiCallStats) :
    rows.foldl statsStep acc =
      { total_calls := acc.total_calls + rows.length
        successful_calls :=
          acc.successful_calls + (rows.filter fun c => c.success).length
        failed_calls :=
          acc.failed_calls + (rows.filter fun c => !c.success).length
        total_credits_used :=
          acc.total_credits_used + (rows.map fun c => c.credits_used).sum } := by
  induction rows generalizing acc with
  | nil => simp
  | cons c rows ih =>
    rw [List.foldl_cons, ih]
    cases h : c.success <;>
      simp [statsStep, h, ApiCallStats.mk.injEq, List.filter_cons] <;>
      constructor <;> omega

/-- C8: the security-definer predicate `is_admin(user_id)` is true exactly
when some `profiles` row carries that user identity with the admin flag
set; with no such row, or the flag false on every matching row, it is
false. -/
theorem is_admin_iff_exists_admin_row (db : List ProfileRow) (uid : String) :
    is_admin db uid = true ↔
      ∃ r ∈ db, r.user_id = uid ∧ r.is_admin = true := by
  simp [is_admin, List.any_eq_true, Bool.and_eq_true, beq_iff_eq]

/-- C9: `fetchStats` returns the length of the record list as
`total_calls`, the number of successful records as `successful_calls`,
the number of failed records as `failed_calls` (so the two sum to the
total), and the sum of the `credits_used` fields as `total_credits_used`;
the empty list yields all four counters zero. -/
theorem fetchStats_counts (rows : List ApiCall) :
    (fetchStats rows).total_calls = rows.length ∧
    (fetchStats rows).successful_calls =
      (rows.filter fun c => c.success).length ∧
    (fetchStats rows).failed_calls =
      (rows.filter fun c => !c.success).length ∧
    (fetchStats rows).successful_calls + (fetchStats rows).failed_calls =
      (fetchStats rows).total_calls ∧
    (fetchStats rows).total_credits_used =
      (rows.map fun c => c.credits_used).sum ∧
    fetchStats [] = { total_calls := 0, successful_calls := 0,
                      failed_calls := 0, total_credits_used := 0 } := by
  have h := fetchStats_foldl rows statsInit
  have hsplit : rows.length = (rows.filter fun c => c.success).length +
      (rows.filter fun c => !c.success).length := by
    simpa using List.length_eq_length_filter_add (l := rows) fun c => c.success
  simp only [statsInit] at h
  refine ⟨?_, ?_, ?_, ?_, ?_, ?_⟩ <;> simp only [fetchStats, statsInit, h]
  all_goals simp
  all_goals omega

/-- C5 counterexample: the parameter set with bin "123456" (six digits)
and quantity 10 (inside [1,50]) but month 0 is rejected by
`validateInputs`, so validation does not accept every parameter set whose
bin has at least 6 digits and whose quantity lies in [1,50]. -/
theorem validateInputs_not_only_bin_quantity :
    binDigits badMonthParams.bin = true ∧
    (1 ≤ badMonthParams.quantity ∧ badMonthParams.quantity ≤ 50) ∧
    (validateInputs badMonthParams).2 = false := by
  decide

/-- C5 (amended): `validateInputs` returns true exactly when the bin is a
digit string of length at least 6, the quantity lies in [1,50], the month
lies in [1,12] and the year lies in [2025,2035]; each violated constraint
contributes a field-specific error message. -/
theorem validateInputs_spec (p : Params) :
    ((validateInputs p).2 = true ↔
      (6 ≤ p.bin.length ∧ ∀ c ∈ p.bin.data, c.isDigit = true) ∧
      (1 ≤ p.quantity ∧ p.quantity ≤ 50) ∧
      (1 ≤ p.month ∧ p.month ≤ 12) ∧
      (2025 ≤ p.year ∧ p.year ≤ 2035)) ∧
    (binDigits p.bin = false →
      ("bin", "BIN must be at least 6 digits") ∈ (validateInputs p).1) ∧
    (¬ (1 ≤ p.quantity ∧ p.quantity ≤ 50) →
      ∃ m, ("quantity", m) ∈ (validateInputs p).1) ∧
    (¬ (1 ≤ p.month ∧ p.month ≤ 12) →
      ("month", "Month must be between 1-12") ∈ (validateInputs p).1) ∧
    (¬ (2025 ≤ p.year ∧ p.year ≤ 2035) →
      ∃ m, ("year", m) ∈ (validateInputs p).1) := by
  refine ⟨?_, ?_, ?_, ?_, ?_⟩
  · rw [validateInputs_ok_iff, binSchema_none_iff, binDigits_iff,
      quantitySchema_none_iff, monthSchema_none_iff, yearSchema_none_iff]
  · intro hb
    simp [validateInputs, optErr, binSchema, hb]
  · intro hq
    rcases Decidable.not_and_iff_or_not.mp hq with h | h
    · refine ⟨"Quantity must be at least 1", ?_⟩
      simp [validateInputs, optErr, quantitySchema, show p.quantity < 1 by omega]
    · refine ⟨"Quantity cannot exceed 50", ?_⟩
      simp [validateInputs, optErr, quantitySchema,
        show ¬ p.quantity < 1 by omega, show 50 < p.quantity by omega]
  · intro hm
    rcases Decidable.not_and_iff_or_not.mp hm with h | h
    · simp [validateInputs, optErr, monthSchema, show p.month < 1 by omega]
    · simp [validateInputs, optErr, monthSchema,
        show ¬ p.month < 1 by omega, show 12 < p.month by omega]
  · intro hy
    rcases Decidable.not_and_iff_or_not.mp hy with h | h
    · refine ⟨"Year must be 2025 or later", ?_⟩
      simp [validateInputs, optErr, yearSchema, show p.year < 2025 by omega]
    · refine ⟨"Year cannot exceed 2035", ?_⟩
      simp [validateInputs, optErr, yearSchema,
        show ¬ p.year < 2025 by omega, show 2035 < p.year by omega]

/-- Witness for C5's amended theorem at a concrete all-invalid input. -/
theorem validateInputs_spec_witness :
    (validateInputs allInvalidParams).2 = false ∧
    ("bin", "BIN must be at least 6 digits") ∈
      (validateInputs allInvalidParams).1 ∧
    (∃ m, ("quantity", m) ∈ (validateInputs allInvalidParams).1) ∧
    ("month", "Month must be between 1-12") ∈
      (validateInputs allInvalidParams).1 ∧
    (∃ m, ("year", m) ∈ (validateInputs allInvalidParams).1) := by
  have h := validateInputs_spec allInvalidParams
  exact ⟨by decide, h.2.1 (by decide), h.2.2.1 (by decide),
    h.2.2.2.1 (by decide), h.2.2.2.2 (by decide)⟩

/-- C6: when validation fails, `makeApiCall` stops after recording the
field errors: no external request is issued, no call record is inserted,
the store and the in-memory profile are untouched, and no toast beyond
the field errors is raised. -/
theorem makeApiCall_invalid (uid : String) (p : Params) (o : FetchOutcome)
    (s : LedgerState) (hv : (validateInputs p).2 = false) :
    (makeApiCall uid p o s).2.requested = false ∧
    (makeApiCall uid p o s).1.apiCalls = s.apiCalls ∧
    (makeApiCall uid p o s).1.profiles = s.profiles ∧
    (makeApiCall uid p o s).1.profile = s.profile ∧
    (makeApiCall uid p o s).1.errors = (validateInputs p).1 ∧
    (makeApiCall uid p o s).2.toast = none := by
  simp [makeApiCall, hv]

/-- Witness for C6 at the specification's example: bin "12345" (five
digits) is rejected before any network or store interaction. -/
theorem makeApiCall_invalid_witness :
    (makeApiCall "u1" invalidParams .throws sampleState).2.requested = false ∧
    (makeApiCall "u1" invalidParams .throws sampleState).1.apiCalls =
      sampleState.apiCalls ∧
    (makeApiCall "u1" invalidParams .throws sampleState).1.profiles =
      sampleState.profiles ∧
    (makeApiCall "u1" invalidParams .throws sampleState).1.profile =
      sampleState.profile ∧
    (makeApiCall "u1" invalidParams .throws sampleState).1.errors =
      (validateInputs invalidParams).1 ∧
    (makeApiCall "u1" invalidParams .throws sampleState).2.toast = none :=
  makeApiCall_invalid "u1" invalidParams .throws sampleState (by decide)

/-- C1: with fewer than 1 credit, `makeApiCall` issues no external
request, inserts no call record, and leaves both the store balances and
the in-memory profile unchanged (so a balance of 0 can never be pushed
negative); whenever validation passed, the insufficient-credit toast is
shown. -/
theorem makeApiCall_insufficient_credits (uid : String) (p : Params)
    (o : FetchOutcome) (s : LedgerState) (prof : ProfileRow)
    (hp : s.profile = some prof) (hc : prof.credits < 1) :
    (makeApiCall uid p o s).2.requested = false ∧
    (makeApiCall uid p o s).1.apiCalls = s.apiCalls ∧
    (makeApiCall uid p o s).1.profiles = s.profiles ∧
    (makeApiCall uid p o s).1.profile = s.profile ∧
    ((validateInputs p).2 = true →
      (makeApiCall uid p o s).2.toast = some Toast.insufficientCredits) := by
  cases hv : (validateInputs p).2 with
  | false => simp [makeApiCall, hv]
  | true => simp [makeApiCall, hv, hp, hc]

/-- Witness for C1: the zero-credit profile with valid parameters. -/
theorem makeApiCall_insufficient_credits_witness :
    (makeApiCall "u2" sampleParams (.returns true sampleData)
      brokeState).2.requested = false ∧
    (makeApiCall "u2" sampleParams (.returns true sampleData)
      brokeState).1.apiCalls = brokeState.apiCalls ∧
    (makeApiCall "u2" sampleParams (.returns true sampleData)
      brokeState).1.profiles = brokeState.profiles ∧
    (makeApiCall "u2" sampleParams (.returns true sampleData)
      brokeState).1.profile = brokeState.profile ∧
    ((validateInputs sampleParams).2 = true →
      (makeApiCall "u2" sampleParams (.returns true sampleData)
        brokeState).2.toast = some Toast.insufficientCredits) :=
  makeApiCall_insufficient_credits "u2" sampleParams
    (.returns true sampleData) brokeState brokeProfile rfl (by decide)

/-- C2: with validation passed, at least 1 credit and a successful
external response, `makeApiCall` sets the in-memory balance to one less,
decrements the user's store rows by exactly 1, and appends exactly one
call record carrying success, one credit used, and the submitted bin and
quantity. -/
theorem makeApiCall_success_spec (uid : String) (p : Params)
    (data : RespData) (s : LedgerState) (prof : ProfileRow)
    (hv : (validateInputs p).2 = true)
    (hp : s.profile = some prof)
    (hc : 1 ≤ prof.credits)
    (hrow : ∀ r ∈ s.profiles, r.user_id = uid → r.credits = prof.credits) :
    (makeApiCall uid p (.returns true data) s).1.profile =
      some { prof with credits := prof.credits - 1 } ∧
    (∀ r ∈ s.profiles, r.user_id = uid →
      ({ r with credits := r.credits - 1 } : ProfileRow) ∈
        (makeApiCall uid p (.returns true data) s).1.profiles) ∧
    (makeApiCall uid p (.returns true data) s).1.apiCalls =
      s.apiCalls ++ [mkCallRecord uid p true data] ∧
    (mkCallRecord uid p true data).success = true ∧
    (mkCallRecord uid p true data).credits_used = 1 ∧
    (mkCallRecord uid p true data).bin = p.bin ∧
    (mkCallRecord uid p true data).quantity = p.quantity := by
  have hlt : ¬ prof.credits < 1 := not_lt.mpr hc
  refine ⟨?_, ?_, ?_, rfl, rfl, rfl, rfl⟩
  · simp [makeApiCall, hv, hp, hlt]
  · intro r hr hu
    have hfr : (if r.user_id = uid
        then ({ r with credits := prof.credits - 1 } : ProfileRow)
        else r) = { r with credits := r.credits - 1 } := by
      rw [if_pos hu, hrow r hr hu]
    simp only [makeApiCall, hv, hp, hlt, updateCredits]
    simp only [Bool.not_true, if_neg hlt]
    exact List.mem_map.mpr ⟨r, hr, hfr⟩
  · simp [makeApiCall, hv, hp, hlt]

/-- Witness for C2, the specification's example: bin "401658", quantity
10, starting balance 3; on external success the balance becomes 2 and one
log row is appended with quantity 10, one credit used, success true. -/
theorem makeApiCall_success_spec_witness :
    (makeApiCall "u1" sampleParams (.returns true sampleData)
      sampleState).1.profile = some { sampleProfile with credits := 2 } ∧
    (∀ r ∈ sampleState.profiles, r.user_id = "u1" →
      ({ r with credits := r.credits - 1 } : ProfileRow) ∈
        (makeApiCall "u1" sampleParams (.returns true sampleData)
          sampleState).1.profiles) ∧
    (makeApiCall "u1" sampleParams (.returns true sampleData)
      sampleState).1.apiCalls =
      sampleState.apiCalls ++ [mkCallRecord "u1" sampleParams true sampleData] ∧
    (mkCallRecord "u1" sampleParams true sampleData).success = true ∧
    (mkCallRecord "u1" sampleParams true sampleData).credits_used = 1 ∧
    (mkCallRecord "u1" sampleParams true sampleData).bin = "401658" ∧
    (mkCallRecord "u1" sampleParams true sampleData).quantity = 10 :=
  makeApiCall_success_spec "u1" sampleParams sampleData sampleState
    sampleProfile (by decide) rfl (by decide) (by decide)

/-- C3: with validation passed, at least 1 credit and a returned error
status, `makeApiCall` leaves both the store balances and the in-memory
profile unchanged and appends exactly one call record with success false
and a non-null error message. -/
theorem makeApiCall_failed_call_spec (uid : String) (p : Params)
    (data : RespData) (s : LedgerState) (prof : ProfileRow)
    (hv : (validateInputs p).2 = true)
    (hp : s.profile = some prof)
    (hc : 1 ≤ prof.credits) :
    (makeApiCall uid p (.returns false data) s).1.profiles = s.profiles ∧
    (makeApiCall uid p (.returns false data) s).1.profile = s.profile ∧
    (makeApiCall uid p (.returns false data) s).1.apiCalls =
      s.apiCalls ++ [mkCallRecord uid p false data] ∧
    (mkCallRecord uid p false data).success = false ∧
    (mkCallRecord uid p false data).error_message =
      some (jsOr data.error "Unknown error") ∧
    (mkCallRecord uid p false data).error_message ≠ none := by
  have hlt : ¬ prof.credits < 1 := not_lt.mpr hc
  refine ⟨?_, ?_, ?_, rfl, rfl, ?_⟩
  · simp [makeApiCall, hv, hp, hlt]
  · rw [hp]
    simp [makeApiCall, hv, hp, hlt]
  · simp [makeApiCall, hv, hp, hlt]
  · simp [mkCallRecord]

/-- Witness for C3 at a concrete failing response. -/
theorem makeApiCall_failed_call_spec_witness :
    (makeApiCall "u1" sampleParams (.returns false sampleErrData)
      sampleState).1.profiles = sampleState.profiles ∧
    (makeApiCall "u1" sampleParams (.returns false sampleErrData)
      sampleState).1.profile = sampleState.profile ∧
    (makeApiCall "u1" sampleParams (.returns false sampleErrData)
      sampleState).1.apiCalls = sampleState.apiCalls ++
      [mkCallRecord "u1" sampleParams false sampleErrData] ∧
    (mkCallRecord "u1" sampleParams false sampleErrData).success = false ∧
    (mkCallRecord "u1" sampleParams false sampleErrData).error_message =
      some (jsOr sampleErrData.error "Unknown error") ∧
    (mkCallRecord "u1" sampleParams false sampleErrData).error_message ≠
      none :=
  makeApiCall_failed_call_spec "u1" sampleParams sampleErrData sampleState
    sampleProfile (by decide) rfl (by decide)

/-- C4 counterexample: with valid parameters and 3 credits, when the
external request itself throws, `makeApiCall` inserts no call record at
all — the log stays empty although the request was issued. -/
theorem makeApiCall_throws_no_record :
    (validateInputs sampleParams).2 = true ∧
    sampleState.profile = some sampleProfile ∧
    1 ≤ sampleProfile.credits ∧
    (makeApiCall "u1" sampleParams .throws sampleState).2.requested = true ∧
    (makeApiCall "u1" sampleParams .throws sampleState).1.apiCalls.length
      = 0 := by
  decide

/-- C4 (amended): past validation and the credit precondition, exactly
one call record is inserted whenever the external request returns a
response (whether success or error status); when the request itself
throws, the catch block is entered and no record is inserted (and the
store is untouched). -/
theorem makeApiCall_record_iff_response (uid : String) (p : Params)
    (s : LedgerState) (prof : ProfileRow)
    (hv : (validateInputs p).2 = true)
    (hp : s.profile = some prof)
    (hc : 1 ≤ prof.credits) :
    (∀ ok data,
      (makeApiCall uid p (.returns ok data) s).1.apiCalls.length =
        s.apiCalls.length + 1) ∧
    (makeApiCall uid p .throws s).1.apiCalls = s.apiCalls ∧
    (makeApiCall uid p .throws s).1.profiles = s.profiles := by
  have hlt : ¬ prof.credits < 1 := not_lt.mpr hc
  refine ⟨?_, ?_, ?_⟩
  · intro ok data
    cases ok <;> simp [makeApiCall, hv, hp, hlt, updateCredits]
  · simp [makeApiCall, hv, hp, hlt]
  · simp [makeApiCall, hv, hp, hlt]

/-- Witness for C4's amended theorem at the sample state. -/
theorem makeApiCall_record_iff_response_witness :
    (∀ ok data,
      (makeApiCall "u1" sampleParams (.returns ok data)
        sampleState).1.apiCalls.length =
        sampleState.apiCalls.length + 1) ∧
    (makeApiCall "u1" sampleParams .throws sampleState).1.apiCalls =
      sampleState.apiCalls ∧
    (makeApiCall "u1" sampleParams .throws sampleState).1.profiles =
      sampleState.profiles :=
  makeApiCall_record_iff_response "u1" sampleParams sampleState
    sampleProfile (by decide) rfl (by decide)

/-- C7: `fetchProfile` returns the stored row when one exists; when none
exists it inserts (and returns) a fresh row with zero credits and the
user's email and display name; a store failure surfaces only as the
generic fetch-error toast, with nothing inserted and the profile state
untouched. -/
theorem fetchProfile_spec (u : AuthUser) (r : ProfileRow)
    (prev : Option ProfileRow) (f : Bool) :
    fetchProfile u (.found r) f prev =
      { profile := some r, inserted := none, toast := none } ∧
    fetchProfile u .absent false prev =
      { profile := some (newProfileRow u),
        inserted := some (newProfileRow u), toast := none } ∧
    (newProfileRow u).credits = 0 ∧
    (newProfileRow u).email = u.email ∧
    (newProfileRow u).full_name = jsOrNull u.metaFullName ∧
    fetchProfile u .failure f prev =
      { profile := prev, inserted := none,
        toast := some Toast.profileFetchError } :=
  ⟨rfl, rfl, rfl, rfl, rfl, rfl⟩

/-- C10: `fetchRecentCalls` returns at most five records, all owned by
the current user and ordered newest first; on a store error the
previously displayed list is returned unchanged. -/
theorem fetchRecentCalls_spec (db : List ApiCall) (uid : String)
    (prev : List ApiCall) :
    fetchRecentCalls db uid true prev = prev ∧
    (fetchRecentCalls db uid false prev).length ≤ 5 ∧
    (∀ c ∈ fetchRecentCalls db uid false prev, c.user_id = uid) ∧
    (fetchRecentCalls db uid false prev).Pairwise newestFirst := by
  refine ⟨rfl, ?_, ?_, ?_⟩
  · simp [fetchRecentCalls, recentQuery]
  · intro c hc
    simp only [fetchRecentCalls, recentQuery, if_false, Bool.false_eq_true,
      reduceIte] at hc
    have h1 : c ∈ (db.filter fun c => c.user_id == uid).insertionSort
        newestFirst := List.mem_of_mem_take hc
    rw [List.mem_insertionSort] at h1
    exact beq_iff_eq.mp (List.mem_filter.mp h1).2
  · have hs := List.sorted_insertionSort newestFirst
      (db.filter fun c => c.user_id == uid)
    simp only [fetchRecentCalls, recentQuery, Bool.false_eq_true, reduceIte]
    exact List.Pairwise.sublist (List.take_sublist 5 _) hs

/-- Witness for C10 at the sample call table. -/
theorem fetchRecentCalls_spec_witness :
    fetchRecentCalls sampleCalls "u1" true [] = [] ∧
    (fetchRecentCalls sampleCalls "u1" false []).length ≤ 5 ∧
    (∀ c ∈ fetchRecentCalls sampleCalls "u1" false [], c.user_id = "u1") ∧
    (fetchRecentCalls sampleCalls "u1" false []).Pairwise newestFirst :=
  fetchRecentCalls_spec sampleCalls "u1" []

end BinGenie
